import Mathlib

/-!
Verification of the `car_scraping` ORM layer: a shallow embedding of
`src/orm/database.py`, `src/orm/base.py` and
`src/database_config/initialize.py`, together with theorems settling the
spec claims about them.

Conventions of the embedding:
* SQL values are modelled by the inductive `Value`; a row / Python dict is an
  association list `Record` whose construction follows Python dict semantics
  (`dictOfPairs`: last value for a key wins, position of first occurrence kept).
* The psycopg2 connection and server are modelled by an explicit `DBState`
  (committed tables and the current in-transaction view) plus oracles telling
  which driver calls raise.
* Python exceptions are modelled by `PyError`; functions that may raise return
  `Except PyError _`.
-/

namespace CarScraping

/-- A SQL / Python value stored in a column. -/
inductive Value where
  | int : Int → Value
  | str : String → Value
  | null : Value
deriving DecidableEq, Repr

/-- A row, or a Python dict from column names to values (association list,
keys meant to be unique). -/
abbrev Record := List (String × Value)

/-- A Python exception. -/
inductive PyError where
  | keyError : String → PyError
  | valueError : String → PyError
  | fileNotFoundError : String → PyError
deriving DecidableEq, Repr

/-- Python `col.startswith('_')`: whether the name's first character is the
private marker. -/
def startsWithUnderscore (s : String) : Bool :=
  match s.data with
  | [] => false
  | c :: _ => c = '_'

/-- Lookup in a Python dict: first (hence unique) binding of the key. -/
def dictGet? (d : Record) (k : String) : Option Value :=
  (d.find? (fun p => p.1 = k)).map Prod.snd

/-- Python `d[k] = v`: update the value in place if the key is present,
otherwise append the new binding. -/
def dictInsert (d : Record) (k : String) (v : Value) : Record :=
  if d.any (fun p => p.1 = k) then
    d.map (fun p => if p.1 = k then (k, v) else p)
  else
    d ++ [(k, v)]

/-- Python `dict(pairs)` / a dict comprehension over `pairs`: for duplicate
keys the last value wins and the position of the first occurrence is kept. -/
def dictOfPairs (ps : List (String × Value)) : Record :=
  ps.foldl (fun d p => dictInsert d p.1 p.2) []

/-- psycopg2 `sql.Identifier` rendering: the identifier is double-quoted with
inner double quotes doubled. -/
def pgQuoteIdent (s : String) : String :=
  "\"" ++ (s.foldl (fun acc c =>
    acc ++ (if c = '\"' then "\"\"" else String.singleton c)) "") ++ "\""

/-- The column/value pairs `insert_record` actually uses:
`{col: value for col, value in zip(columns, values) if not col.startswith('_')}`
(src/orm/database.py line 83). -/
def insert_filtered_record (columns : List String) (values : List Value) : Record :=
  dictOfPairs ((columns.zip values).filter (fun p => !startsWithUnderscore p.1))

/-- The INSERT statement emitted by `insert_record`
(src/orm/database.py lines 86-90): identifiers escaped, one placeholder per
kept column. -/
def insert_statement (table : String) (columns : List String)
    (values : List Value) : String :=
  let record := insert_filtered_record columns values
  "INSERT INTO " ++ pgQuoteIdent table ++ " (" ++
    String.intercalate "," (record.map (fun p => pgQuoteIdent p.1)) ++
    ") VALUES (" ++
    String.intercalate "," (record.map (fun _ => "%s")) ++
    ") RETURNING *;"

/-- The `columns` argument of `select_records`: either an explicit list or a
plain string (default `'*'`). -/
inductive ColumnsArg where
  | list : List String → ColumnsArg
  | str : String → ColumnsArg
deriving DecidableEq, Repr

/-- The `fields` part of the SELECT statement (src/orm/database.py lines
126-129): identifiers escaped when a list is given, the string spliced via
`sql.SQL(columns)` otherwise. -/
def columns_sql : ColumnsArg → String
  | .list cs => String.intercalate ", " (cs.map pgQuoteIdent)
  | .str s => s

/-- The SELECT statement emitted by `select_records`
(src/orm/database.py lines 131-137). -/
def select_statement (table : String) (columns : ColumnsArg)
    (where_clause : Option String) : String :=
  "SELECT " ++ columns_sql columns ++ " FROM " ++ pgQuoteIdent table ++
    (match where_clause with
     | some w => " WHERE " ++ w
     | none => "")

/-- The UPDATE statement emitted by `update_record`
(src/orm/database.py lines 172-181). -/
def update_statement (table : String) (columns : List String)
    (where_clause : String) : String :=
  "UPDATE " ++ pgQuoteIdent table ++ " SET " ++
    String.intercalate ", " (columns.map (fun c => pgQuoteIdent c ++ " = %s")) ++
    " WHERE " ++ where_clause

/-! ### The database server and the connection's transaction -/

/-- The tables of the database: the rows of each table name, in insertion
order. -/
abbrev Tables := String → List Record

/-- Rows of a table (empty list when the table holds no rows yet). -/
def getTable (ts : Tables) (name : String) : List Record :=
  ts name

/-- Replace (or create) a table's row list. -/
def putTable (ts : Tables) (name : String) (rows : List Record) : Tables :=
  fun m => if m = name then rows else ts m

/-- A server with no rows anywhere. -/
def emptyTables : Tables :=
  fun _ => []

/-- State visible through the single shared psycopg2 connection: the committed
tables and the connection's current in-transaction view of them.  `commit`
publishes the current view; `rollback` restores the committed one
(src/orm/database.py lines 46-58). -/
structure DBState where
  committed : Tables
  current : Tables

/-- A database state with no rows, committed or pending. -/
def emptyDB : DBState :=
  ⟨emptyTables, emptyTables⟩

/-- Model of `Database.commit` (src/orm/database.py line 51). -/
def Database.commit (db : DBState) : DBState :=
  { db with committed := db.current }

/-- Model of `Database.rollback` (src/orm/database.py line 58). -/
def Database.rollback (db : DBState) : DBState :=
  { db with current := db.committed }

/-! ### `Database.insert_record` -/

/-- Which driver calls raise during one `insert_record` call: whether the
`cursor.execute`/fetch block completes, and whether a `commit` issued by the
call succeeds. -/
structure InsertOracle where
  execOk : Bool
  commitOk : Bool
deriving DecidableEq, Repr

/-- Here `InsertOracle.execOk` also stands for the fetch of the returned row and
the row-mapping construction completing; any of those raising is one failing
try block. -/
def driverOk : InsertOracle :=
  ⟨true, true⟩

/-- Outcome of one `insert_record` call: the returned mapping, the state
after the call, and whether the except-branch ran (`rollback` + error log,
src/orm/database.py lines 101-103). -/
structure InsertResult where
  ret : Record
  state : DBState
  rolledBack : Bool
  logged : Bool

/-- Model of `Database.insert_record` (src/orm/database.py lines 60-105).  Builds the
filtered record, executes the INSERT (`RETURNING *` hands back the inserted
row), optionally commits; any exception in the try block triggers a rollback
and an error log, and the function returns whatever `inserted_record` holds at
that point (`{}` unless the row mapping was already built). -/
def insert_record (db : DBState) (o : InsertOracle) (table : String)
    (columns : List String) (values : List Value) (autocommit : Bool) :
    InsertResult :=
  let record := insert_filtered_record columns values
  if o.execOk then
    let db1 : DBState :=
      { db with current := putTable db.current table (getTable db.current table ++ [record]) }
    if autocommit then
      if o.commitOk then
        ⟨record, Database.commit db1, false, false⟩
      else
        ⟨record, Database.rollback db1, true, true⟩
    else
      ⟨record, db1, false, false⟩
  else
    ⟨[], Database.rollback db, true, true⟩

/-! ### `Database.select_records` -/

/-- Semantic evaluation, by the database server, of the equality WHERE clause
`'col1 = %s AND col2 = %s AND ...'` that `BaseModel.from_database_id` builds
(src/orm/base.py line 89) with the bound `record_id` values: a row matches
when every key column holds the corresponding value. -/
def keyMatch (table_id : List String) (record_id : List Value)
    (row : Record) : Bool :=
  (table_id.zip record_id).all (fun p => dictGet? row p.1 = some p.2)

/-- Model of `Database.select_records` with the default `columns='*'`
(src/orm/database.py lines 107-144): the rows of the table in the
connection's current view that satisfy the WHERE predicate, each returned as a
column-to-value mapping, in stored order. -/
def select_records (db : DBState) (table : String)
    (wherePred : Record → Bool) : List Record :=
  (getTable db.current table).filter wherePred

/-! ### `Database.update_record` -/

/-- Outcome of one `update_record` call: the returned row count (or the raised
error), the state after the call, the statement built (if any), and how many
database calls were made. -/
structure UpdateResult where
  result : Except PyError Nat
  state : DBState
  sqlBuilt : Option String
  dbCalls : Nat

/-- Server-side effect of executing the UPDATE: every row of the table
matching the WHERE predicate has each SET column replaced by its bound
value. -/
def applyUpdate (rows : List Record) (wherePred : Record → Bool)
    (columns : List String) (values : List Value) : List Record :=
  rows.map (fun row =>
    if wherePred row then
      (columns.zip values).foldl (fun r p => dictInsert r p.1 p.2) row
    else row)

/-- Model of `Database.update_record` (src/orm/database.py lines 147-190): raises a
`ValueError` when the column and value counts differ, before building any SQL
or touching the database; otherwise builds the UPDATE statement, executes it,
optionally commits and returns the affected row count. -/
def update_record (db : DBState) (table : String) (columns : List String)
    (values : List Value) (where_clause : String)
    (wherePred : Record → Bool) (autocommit : Bool) : UpdateResult :=
  if columns.length ≠ values.length then
    ⟨.error (.valueError "The number of columns must match the number of values."),
      db, none, 0⟩
  else
    let stmt := update_statement table columns where_clause
    let rows := getTable db.current table
    let affected := (rows.filter wherePred).length
    let db1 : DBState :=
      { db with current := putTable db.current table (applyUpdate rows wherePred columns values) }
    let db2 := if autocommit then Database.commit db1 else db1
    ⟨.ok affected, db2, some stmt, 1⟩

/-! ### `BaseModel` (src/orm/base.py) -/

/-- The class-level metadata a `BaseModel` subclass declares
(src/orm/base.py lines 28-30). -/
structure ModelClass where
  table_name : String
  table_columns : List String
  table_id : List String
deriving DecidableEq, Repr

/-- A model instance is represented by its `__dict__`: the attribute
name-to-value mapping (keys unique). -/
abbrev Instance := Record

/-- Model of `BaseModel.dict_record` (src/orm/base.py line 46): the attributes whose
names do not start with an underscore. -/
def dict_record (inst : Instance) : Record :=
  inst.filter (fun p => !startsWithUnderscore p.1)

/-- Modelled from the spec: `BaseModel.__init__` is a stub (`pass`,
src/orm/base.py line 34) and the concrete subclass constructors are not under
src/; per the spec a model is "constructed either directly with keyword
attributes" and every persisted column corresponds to an instance attribute,
so `cls(**record)` is modelled as the instance whose attributes are exactly
the keyword mapping. -/
def model_construct (kwargs : Record) : Instance :=
  kwargs

/-- The id-collection loop of `BaseModel.dump` (src/orm/base.py lines 64-66):
`record[col_id]` for each key column in order; the first missing column raises
a `KeyError` for that column. -/
def lookupIds (r : Record) : List String → Except PyError (List Value)
  | [] => .ok []
  | c :: cs =>
    match dictGet? r c with
    | some v =>
      match lookupIds r cs with
      | .ok vs => .ok (v :: vs)
      | .error e => .error e
    | none => .error (.keyError c)

/-- Model of `BaseModel.dump` (src/orm/base.py lines 48-67): insert the public
attributes via `insert_record` (no autocommit), then read each `table_id`
column off the returned mapping — a missing column raises a `KeyError`.
Returns the primary-key values (or the raised error) and the state after the
call. -/
def dump (cls : ModelClass) (inst : Instance) (db : DBState)
    (o : InsertOracle) : Except PyError (List Value) × DBState :=
  let dr := dict_record inst
  let res := insert_record db o cls.table_name (dr.map Prod.fst) (dr.map Prod.snd) false
  (lookupIds res.ret cls.table_id, res.state)

/-- The message of the not-found `ValueError`
(src/orm/base.py line 103), keyed by the f-string rendering of `record_id`. -/
def not_found_msg (ridStr : String) : String :=
  "Record ID: " ++ ridStr ++ " not found."

/-- The message of the generic lookup `ValueError`
(src/orm/base.py line 98), keyed by the rendering of the caught exception. -/
def fetch_failed_msg (excStr : String) : String :=
  "Failed to fetch record from database. Error: " ++ excStr

/-- The message of the id-length-mismatch `ValueError`
(src/orm/base.py line 87). -/
def id_mismatch_msg (ridStr idStr : String) : String :=
  "Record ID (" ++ ridStr ++ ") does not match table ID (" ++ idStr ++ ")."

/-- Python f-string rendering of a value (only used inside error messages;
the claims never depend on its exact shape). -/
def showValue : Value → String
  | .int n => toString n
  | .str s => "'" ++ s ++ "'"
  | .null => "None"

/-- Python f-string rendering of a list of values. -/
def showValues (vs : List Value) : String :=
  "[" ++ String.intercalate ", " (vs.map showValue) ++ "]"

/-- Python f-string rendering of a list of strings. -/
def showStrings (ss : List String) : String :=
  "[" ++ String.intercalate ", " (ss.map (fun s => "'" ++ s ++ "'")) ++ "]"

/-- Model of `BaseModel.from_database_id` (src/orm/base.py lines 69-103): validate the
key length, select by an ANDed equality WHERE over the key columns, raise a
generic `ValueError` if the query itself raises (`selectExc` carries the
driver exception's rendering in that case), return `cls(**record[0])` when a
row matched, and raise the not-found `ValueError` otherwise. -/
def from_database_id (cls : ModelClass) (db : DBState)
    (selectExc : Option String) (record_id : List Value) :
    Except PyError Instance :=
  if record_id.length ≠ cls.table_id.length then
    .error (.valueError (id_mismatch_msg (showValues record_id) (showStrings cls.table_id)))
  else
    match selectExc with
    | some e => .error (.valueError (fetch_failed_msg e))
    | none =>
      match select_records db cls.table_name (keyMatch cls.table_id record_id) with
      | row :: _ => .ok (model_construct row)
      | [] => .error (.valueError (not_found_msg (showValues record_id)))

/-! ### The `Database` singleton (src/orm/database.py lines 11-36) -/

/-- Process-level state of the `Database` class: whether `Database._instance`
is set, how many times `psycopg2.connect` has run, and which connection handle
`self._connection` currently holds (handles are numbered in creation order). -/
structure PyState where
  instance_exists : Bool
  connect_count : Nat
  connection_handle : Option Nat
deriving DecidableEq, Repr

/-- Process state before any `Database()` call. -/
def initialPyState : PyState :=
  ⟨false, 0, none⟩

/-- Model of `Database.__new__` (src/orm/database.py lines 13-23): create the singleton
instance if absent, otherwise return it unchanged. -/
def db_new (s : PyState) : PyState :=
  if s.instance_exists then s else { s with instance_exists := true }

/-- Model of `Database.__init__` (src/orm/database.py lines 25-36): unconditionally
calls `psycopg2.connect` and stores the fresh connection in
`self._connection`. -/
def db_init (s : PyState) : PyState :=
  { s with
    connection_handle := some s.connect_count
    connect_count := s.connect_count + 1 }

/-- A `Database()` construction: Python runs `__new__` and then always runs
`__init__` on the returned instance. -/
def db_call (s : PyState) : PyState :=
  db_init (db_new s)

/-! ### Bootstrap routine (src/database_config/initialize.py) -/

/-- The PostgreSQL server as the bootstrap sees it: which databases exist and
which have had the schema file applied. -/
structure PgServer where
  databases : List String
  schemaApplied : List String
deriving DecidableEq, Repr

/-- Observable actions of one bootstrap run. -/
inductive BootAction where
  | createDb : String → BootAction
  | applySchemaTo : String → BootAction
deriving DecidableEq, Repr

/-- Model of `database_exists` (src/database_config/initialize.py lines 5-19): catalog
lookup of the database name. -/
def database_exists (s : PgServer) (dbname : String) : Bool :=
  s.databases.contains dbname

/-- Model of `create_database` (src/database_config/initialize.py lines 22-33). -/
def create_database (s : PgServer) (dbname : String) : PgServer :=
  { s with databases := s.databases ++ [dbname] }

/-- Model of `apply_schema` (src/database_config/initialize.py lines 36-42): raises
`FileNotFoundError` when the schema file is missing, otherwise executes its
contents against the connected database. -/
def apply_schema (s : PgServer) (schemaFileExists : Bool) (dbname : String) :
    Except PyError PgServer :=
  if schemaFileExists then
    .ok { s with schemaApplied := s.schemaApplied ++ [dbname] }
  else
    .error (.fileNotFoundError "Schema database_config/schema.sql does not exist")

/-- Model of `initialize_database` (src/database_config/initialize.py lines 45-97;
renamed here):
check existence against the catalog; when absent, create the database and
apply the schema file to it; when present, do neither.  Returns the new server
state together with the actions performed. -/
def init_database (s : PgServer) (schemaFileExists : Bool)
    (dbname : String) : Except PyError (PgServer × List BootAction) :=
  if !database_exists s dbname then
    let s1 := create_database s dbname
    match apply_schema s1 schemaFileExists dbname with
    | .ok s2 => .ok (s2, [.createDb dbname, .applySchemaTo dbname])
    | .error e => .error e
  else
    .ok (s, [])

/-! ### Helper lemmas -/

/-- The not-found message and the generic lookup-failure message of
`from_database_id` differ, whatever gets interpolated into them. -/
lemma not_found_msg_ne_fetch_failed_msg (a b : String) :
    not_found_msg a ≠ fetch_failed_msg b := by
  intro h
  have h2 := congrArg String.data h
  simp only [not_found_msg, fetch_failed_msg, String.data_append] at h2
  simp at h2

/-- A key predicate holding on a dict and on an inserted key holds on the
updated dict. -/
lemma mem_dictInsert_key {P : String → Prop} {d : Record} {k : String} {v : Value}
    (hd : ∀ p ∈ d, P p.1) (hk : P k) : ∀ p ∈ dictInsert d k v, P p.1 := by
  intro p hp
  unfold dictInsert at hp
  split at hp
  · obtain ⟨q, hq, hfq⟩ := List.mem_map.mp hp
    by_cases hqk : q.1 = k
    · rw [if_pos hqk] at hfq
      rw [← hfq]
      exact hk
    · rw [if_neg hqk] at hfq
      rw [← hfq]
      exact hd q hq
  · rcases List.mem_append.mp hp with h | h
    · exact hd p h
    · simp only [List.mem_singleton] at h
      subst h
      exact hk

/-- A key predicate holding on all inputs of the dict-building fold holds on
its result. -/
lemma foldl_dictInsert_key {P : String → Prop} :
    ∀ (l : List (String × Value)) (acc : Record),
      (∀ p ∈ acc, P p.1) → (∀ p ∈ l, P p.1) →
      ∀ p ∈ l.foldl (fun d q => dictInsert d q.1 q.2) acc, P p.1
  | [], _, hacc, _ => hacc
  | q :: l, acc, hacc, hl => by
    simp only [List.foldl_cons]
    exact foldl_dictInsert_key l _
      (mem_dictInsert_key hacc (hl q (List.mem_cons_self q l)))
      (fun p hp => hl p (List.mem_cons_of_mem _ hp))

/-- Every key of `dictOfPairs ps` is a key of some pair of `ps`. -/
lemma dictOfPairs_key {P : String → Prop} (l : List (String × Value))
    (hl : ∀ p ∈ l, P p.1) : ∀ p ∈ dictOfPairs l, P p.1 :=
  foldl_dictInsert_key l [] (by simp) hl

/-- Inserting an absent key appends the binding. -/
lemma dictInsert_of_not_mem {d : Record} {k : String} {v : Value}
    (h : ∀ p ∈ d, p.1 ≠ k) : dictInsert d k v = d ++ [(k, v)] := by
  unfold dictInsert
  rw [if_neg]
  simp only [List.any_eq_true, decide_eq_true_eq, not_exists]
  intro p hp
  exact h p hp.1 hp.2

/-- Folding `dictInsert` over pairs with distinct, fresh keys just appends
them. -/
lemma foldl_dictInsert_nodup :
    ∀ (l : List (String × Value)) (acc : Record),
      (l.map Prod.fst).Nodup →
      (∀ p ∈ l, ∀ q ∈ acc, q.1 ≠ p.1) →
      l.foldl (fun d q => dictInsert d q.1 q.2) acc = acc ++ l
  | [], acc, _, _ => by simp
  | (k, v) :: l, acc, hnd, hdisj => by
    simp only [List.foldl_cons]
    rw [dictInsert_of_not_mem (fun q hq => hdisj (k, v) (List.mem_cons_self _ _) q hq)]
    have hk : k ∉ l.map Prod.fst := (List.nodup_cons.mp (by simpa using hnd)).1
    rw [foldl_dictInsert_nodup l (acc ++ [(k, v)])
      (List.nodup_cons.mp (by simpa using hnd)).2
      (fun p hp q hq => by
        rcases List.mem_append.mp hq with h | h
        · exact hdisj p (List.mem_cons_of_mem _ hp) q h
        · simp only [List.mem_singleton] at h
          subst h
          intro hc
          simp only at hc
          exact hk (by rw [hc]; exact List.mem_map_of_mem Prod.fst hp))]
    simp

/-- With unique keys, `dictOfPairs` reproduces the pair list. -/
lemma dictOfPairs_eq_self (l : List (String × Value))
    (hnd : (l.map Prod.fst).Nodup) : dictOfPairs l = l := by
  have h := foldl_dictInsert_nodup l [] hnd (by simp)
  simpa [dictOfPairs] using h

/-- Zipping the keys of a pair list with its values gives the list back. -/
lemma zip_map_fst_snd : ∀ l : List (String × Value),
    (l.map Prod.fst).zip (l.map Prod.snd) = l
  | [] => rfl
  | p :: l => by simp [zip_map_fst_snd l]

/-- On a dict of public, unique keys (as `dict_record` produces), the filtered
record `insert_record` rebuilds from the split keys and values is the dict
itself. -/
lemma insert_filtered_record_of_public (dr : Record)
    (hnd : (dr.map Prod.fst).Nodup)
    (hf : ∀ p ∈ dr, (!startsWithUnderscore p.1) = true) :
    insert_filtered_record (dr.map Prod.fst) (dr.map Prod.snd) = dr := by
  unfold insert_filtered_record
  rw [zip_map_fst_snd, List.filter_eq_self.mpr hf, dictOfPairs_eq_self dr hnd]

/-- When every requested column is present, `lookupIds` succeeds with as many
values as columns, and the looked-up pairs all agree with the record — which
is exactly the `keyMatch` predicate the by-key SELECT evaluates. -/
lemma lookupIds_spec (r : Record) :
    ∀ cols : List String, (∀ c ∈ cols, (dictGet? r c).isSome = true) →
      ∃ ids, lookupIds r cols = .ok ids ∧ ids.length = cols.length ∧
        keyMatch cols ids r = true
  | [], _ => ⟨[], rfl, rfl, rfl⟩
  | c :: cs, h => by
    obtain ⟨v, hv⟩ := Option.isSome_iff_exists.mp (h c (List.mem_cons_self c cs))
    obtain ⟨ids, hok, hlen, hmatch⟩ :=
      lookupIds_spec r cs (fun x hx => h x (List.mem_cons_of_mem _ hx))
    refine ⟨v :: ids, ?_, by simp [hlen], ?_⟩
    · simp [lookupIds, hv, hok]
    · simp only [keyMatch, List.zip_cons_cons, List.all_cons, Bool.and_eq_true,
        decide_eq_true_eq] at hmatch ⊢
      exact ⟨hv, hmatch⟩

/-- Every attribute kept by `dict_record` has a public name. -/
lemma dict_record_keys_public (inst : Instance) :
    ∀ p ∈ dict_record inst, (!startsWithUnderscore p.1) = true := by
  intro p hp
  exact (List.mem_filter.mp hp).2

/-- Model `dict_record` preserves uniqueness of the attribute names. -/
lemma dict_record_nodup (inst : Instance) (hnd : (inst.map Prod.fst).Nodup) :
    ((dict_record inst).map Prod.fst).Nodup :=
  hnd.sublist ((List.filter_sublist inst).map Prod.fst)

/-- Taking the public attributes twice is the same as taking them once. -/
lemma dict_record_idem (inst : Instance) :
    dict_record (dict_record inst) = dict_record inst :=
  List.filter_eq_self.mpr (dict_record_keys_public inst)

/-! ### Claims -/

/-- C1: the claim says constructing/requesting the `Database` connection
manager more than once establishes the connection on the first request only
and returns the same handle afterwards.  The code contradicts its own
docstring ("Initializes the singleton instance if not already initialized")
and the `__initialized` guard flag `__new__` sets but `__init__` never reads:
every `Database()` call runs `__init__`, which unconditionally calls
`psycopg2.connect` and replaces `self._connection`.  Evaluated here at the
failing input — two `Database()` calls in one process: `connect` has run
twice and the stored handle after the second call differs from the handle
after the first. -/
theorem database_singleton_reconnects :
    (db_call initialPyState).connect_count = 1 ∧
    (db_call (db_call initialPyState)).connect_count = 2 ∧
    (db_call (db_call initialPyState)).connection_handle ≠
      (db_call initialPyState).connection_handle := by
  decide

/-- C2 (counterexample): the claim says `dump()` fails silently — returns
degenerate output rather than raising — when the insert fails.  For the model
class `users` with key column `id`, a failing insert makes `insert_record`
return the empty mapping and `dump` then raises `KeyError('id')` at
`record[col_id]` instead of returning. -/
theorem dump_failed_insert_raises_cex :
    (dump ⟨"users", ["id", "name"], ["id"]⟩
      [("id", Value.int 1), ("name", Value.str "Alice")]
      emptyDB ⟨false, false⟩).1 = Except.error (PyError.keyError "id") := by
  rfl

/-- C2 (amended): when the underlying insert fails (empty-mapping result),
`dump` raises a `KeyError` for the first primary-key column whenever the
model declares at least one primary-key column; only a model with an empty
`table_id` returns the degenerate empty list silently. -/
theorem dump_failed_insert_behavior (cls : ModelClass) (inst : Instance)
    (db : DBState) (b : Bool) :
    (dump cls inst db ⟨false, b⟩).1 =
      match cls.table_id with
      | [] => Except.ok []
      | c :: _ => Except.error (PyError.keyError c) := by
  cases h : cls.table_id with
  | nil => simp [dump, insert_record, h, lookupIds]
  | cons c cs => simp [dump, insert_record, h, lookupIds, dictGet?]

/-- C3: round-trip — constructing a model instance, calling `dump()` (with
the driver calls succeeding), then `from_database_id` with the returned key
values yields an instance whose public attributes equal the original's public
attributes; under the source's subclass contract (unique attribute names,
every key column a public attribute) and a table holding no prior row. -/
theorem dump_round_trip (cls : ModelClass) (inst : Instance) (db : DBState)
    (hnd : (inst.map Prod.fst).Nodup)
    (hkeys : ∀ c ∈ cls.table_id, (dictGet? (dict_record inst) c).isSome = true)
    (hfresh : db.current cls.table_name = []) :
    ∃ ids inst',
      (dump cls inst db driverOk).1 = Except.ok ids ∧
      from_database_id cls (dump cls inst db driverOk).2 none ids = Except.ok inst' ∧
      dict_record inst' = dict_record inst := by
  obtain ⟨ids, hok, hlen, hmatch⟩ := lookupIds_spec (dict_record inst) cls.table_id hkeys
  have hrec := insert_filtered_record_of_public (dict_record inst)
    (dict_record_nodup inst hnd) (dict_record_keys_public inst)
  refine ⟨ids, dict_record inst, ?_, ?_, dict_record_idem inst⟩
  · simp [dump, insert_record, driverOk, hrec, hok]
  · have hsel : select_records (dump cls inst db driverOk).2 cls.table_name
        (keyMatch cls.table_id ids) = [dict_record inst] := by
      simp [select_records, dump, insert_record, driverOk, hrec, getTable, putTable,
        hfresh, hmatch]
    simp [from_database_id, hlen, hsel, model_construct]

/-- C3 witness: the round-trip evaluated for a `users` model instance with
key `id = 7`, public attribute `name = 'Alice'` and a private `_tmp`
attribute, against an empty database. -/
theorem dump_round_trip_witness :
    ∃ ids inst',
      (dump ⟨"users", ["id", "name"], ["id"]⟩
          [("id", Value.int 7), ("name", Value.str "Alice"), ("_tmp", Value.int 0)]
          emptyDB driverOk).1 = Except.ok ids ∧
      from_database_id ⟨"users", ["id", "name"], ["id"]⟩
        (dump ⟨"users", ["id", "name"], ["id"]⟩
          [("id", Value.int 7), ("name", Value.str "Alice"), ("_tmp", Value.int 0)]
          emptyDB driverOk).2 none ids = Except.ok inst' ∧
      dict_record inst' =
        dict_record [("id", Value.int 7), ("name", Value.str "Alice"), ("_tmp", Value.int 0)] :=
  dump_round_trip ⟨"users", ["id", "name"], ["id"]⟩
    [("id", Value.int 7), ("name", Value.str "Alice"), ("_tmp", Value.int 0)]
    emptyDB (by decide) (by decide) rfl

/-- C4: every `insert_record` call whose statement execution fails rolls back
the current transaction, logs the error, and returns an empty mapping instead
of propagating, for all tables, columns, values and `autocommit` settings. -/
theorem insert_record_failure_behavior (db : DBState) (table : String)
    (columns : List String) (values : List Value) (autocommit b : Bool) :
    insert_record db ⟨false, b⟩ table columns values autocommit =
      ⟨[], Database.rollback db, true, true⟩ := by
  rfl

/-- C5: every column whose name begins with the private marker (leading
underscore) is excluded, with its paired value, from the column/value pairs
`insert_record` uses — both for the field list of the emitted INSERT
statement and for the bound values. -/
theorem insert_record_excludes_private_columns (columns : List String)
    (values : List Value) :
    ∀ p ∈ insert_filtered_record columns values, startsWithUnderscore p.1 = false := by
  intro p hp
  simp only [insert_filtered_record] at hp
  refine dictOfPairs_key (P := fun k => startsWithUnderscore k = false) _ ?_ p hp
  intro q hq
  have h2 := (List.mem_filter.mp hq).2
  simpa using h2

/-- C5 witness: for columns `['_hidden', 'name']`, the pair for `name` is in
the filtered record and its name does not start with the marker (and the
`_hidden` pair is gone, as the record evaluates to that single pair). -/
theorem insert_record_excludes_private_columns_witness :
    (("name", Value.str "x") ∈
        insert_filtered_record ["_hidden", "name"] [Value.null, Value.str "x"]) ∧
    startsWithUnderscore ("name", Value.str "x").1 = false :=
  ⟨by decide, insert_record_excludes_private_columns ["_hidden", "name"]
    [Value.null, Value.str "x"] ("name", Value.str "x") (by decide)⟩

/-- C6: a `from_database_id` call with a well-sized key whose by-key lookup
matches zero rows raises the not-found `ValueError` (not a silent `None`),
and that error differs from the generic `ValueError` raised when the
underlying query itself fails, whatever that failure's message. -/
theorem from_database_id_not_found_distinct (cls : ModelClass) (db : DBState)
    (record_id : List Value)
    (hlen : record_id.length = cls.table_id.length)
    (hempty : select_records db cls.table_name (keyMatch cls.table_id record_id) = []) :
    from_database_id cls db none record_id =
      Except.error (PyError.valueError (not_found_msg (showValues record_id))) ∧
    ∀ e, from_database_id cls db none record_id ≠
      from_database_id cls db (some e) record_id := by
  have h1 : from_database_id cls db none record_id =
      Except.error (PyError.valueError (not_found_msg (showValues record_id))) := by
    simp [from_database_id, hlen, hempty]
  refine ⟨h1, fun e => ?_⟩
  have h2 : from_database_id cls db (some e) record_id =
      Except.error (PyError.valueError (fetch_failed_msg e)) := by
    simp [from_database_id, hlen]
  rw [h1, h2]
  simp only [ne_eq, Except.error.injEq, PyError.valueError.injEq]
  exact not_found_msg_ne_fetch_failed_msg _ _

/-- C6 witness: looking up key `[99]` for the `users` model in an empty
database raises the not-found error, distinct from every generic lookup
error. -/
theorem from_database_id_not_found_distinct_witness :
    from_database_id ⟨"users", ["id", "name"], ["id"]⟩ emptyDB none [Value.int 99] =
      Except.error (PyError.valueError (not_found_msg (showValues [Value.int 99]))) ∧
    ∀ e, from_database_id ⟨"users", ["id", "name"], ["id"]⟩ emptyDB none [Value.int 99] ≠
      from_database_id ⟨"users", ["id", "name"], ["id"]⟩ emptyDB (some e) [Value.int 99] :=
  from_database_id_not_found_distinct ⟨"users", ["id", "name"], ["id"]⟩ emptyDB
    [Value.int 99] rfl rfl

/-- C7: every `update_record` call with differing column and value counts
raises the validation `ValueError` before any SQL is built (`sqlBuilt = none`)
and before any database call is attempted (`dbCalls = 0`), leaving the state
untouched. -/
theorem update_record_length_mismatch_raises (db : DBState) (table : String)
    (columns : List String) (values : List Value) (wc : String)
    (wp : Record → Bool) (ac : Bool)
    (h : columns.length ≠ values.length) :
    update_record db table columns values wc wp ac =
      ⟨Except.error (PyError.valueError
        "The number of columns must match the number of values."), db, none, 0⟩ := by
  simp [update_record, h]

/-- C7 witness: two columns against one value raise the validation error with
no SQL built and no database call. -/
theorem update_record_length_mismatch_raises_witness :
    ((["a", "b"] : List String).length ≠ ([Value.int 1] : List Value).length) ∧
    update_record emptyDB "cars" ["a", "b"] [Value.int 1] "id = %s"
        (fun _ => true) false =
      ⟨Except.error (PyError.valueError
        "The number of columns must match the number of values."), emptyDB, none, 0⟩ :=
  ⟨by decide, update_record_length_mismatch_raises emptyDB "cars" ["a", "b"]
    [Value.int 1] "id = %s" (fun _ => true) false (by decide)⟩

/-- C8: bootstrap is idempotent with respect to database existence — run
against a non-existent database (with the schema file present) it creates the
database and applies the schema exactly once, and a second run against the
resulting server performs neither action and leaves the server unchanged. -/
theorem init_database_idempotent (s : PgServer) (dbname : String)
    (h : database_exists s dbname = false) :
    ∃ s', init_database s true dbname =
        Except.ok (s', [BootAction.createDb dbname, BootAction.applySchemaTo dbname]) ∧
      init_database s' true dbname = Except.ok (s', []) := by
  refine ⟨⟨s.databases ++ [dbname], s.schemaApplied ++ [dbname]⟩, ?_, ?_⟩
  · simp [init_database, h, create_database, apply_schema]
  · have hex : database_exists ⟨s.databases ++ [dbname], s.schemaApplied ++ [dbname]⟩
        dbname = true := by
      simp [database_exists]
    simp [init_database, hex]

/-- C8 witness: bootstrapping `cars` on a server holding only `postgres`
creates it and applies the schema once; the second run does nothing. -/
theorem init_database_idempotent_witness :
    (database_exists ⟨["postgres"], []⟩ "cars" = false) ∧
    ∃ s', init_database ⟨["postgres"], []⟩ true "cars" =
        Except.ok (s', [BootAction.createDb "cars", BootAction.applySchemaTo "cars"]) ∧
      init_database s' true "cars" = Except.ok (s', []) :=
  ⟨by decide, init_database_idempotent ⟨["postgres"], []⟩ "cars" (by decide)⟩

/-- C9: an `insert_record` execution with `autocommit = true` in which the
INSERT succeeds but the commit raises returns the already-built non-empty row
mapping even though the transaction was rolled back — afterwards neither the
current view nor the committed tables hold the row, so a non-empty return
does not guarantee persistence. -/
theorem insert_record_autocommit_nonempty_despite_rollback :
    (insert_record emptyDB ⟨true, false⟩ "users" ["name"] [Value.str "Alice"] true).ret =
      [("name", Value.str "Alice")] ∧
    (insert_record emptyDB ⟨true, false⟩ "users" ["name"] [Value.str "Alice"] true).ret ≠ [] ∧
    (insert_record emptyDB ⟨true, false⟩ "users" ["name"] [Value.str "Alice"] true).rolledBack
      = true ∧
    (insert_record emptyDB ⟨true, false⟩ "users" ["name"]
      [Value.str "Alice"] true).state.current "users" = [] ∧
    (insert_record emptyDB ⟨true, false⟩ "users" ["name"]
      [Value.str "Alice"] true).state.committed "users" = [] := by
  refine ⟨by decide, by decide, by decide, by decide, by decide⟩

/-- C10: every plain-string `columns` argument of `select_records` — not only
the literal `'*'` — is spliced verbatim and unescaped into the emitted SELECT
statement, while identifier escaping is applied exactly when `columns` is an
explicit list (so the same name renders differently in the two forms). -/
theorem select_records_string_columns_verbatim :
    (∀ s table, select_statement table (ColumnsArg.str s) none =
        "SELECT " ++ s ++ " FROM " ++ pgQuoteIdent table) ∧
    (∀ cs, columns_sql (ColumnsArg.list cs) =
        String.intercalate ", " (cs.map pgQuoteIdent)) ∧
    columns_sql (ColumnsArg.str "name; DROP TABLE cars --") =
      "name; DROP TABLE cars --" ∧
    columns_sql (ColumnsArg.str "name") ≠ columns_sql (ColumnsArg.list ["name"]) := by
  refine ⟨fun s table => ?_, fun cs => rfl, rfl, by decide⟩
  simp [select_statement, columns_sql]

end CarScraping
